import Mathlib

/-!
Shallow embedding of the quiz/test REST backend (src/server.js, plus the
alternate route set in src/unnamed/part_000) over an explicit store state.

Modelling conventions:
* JS numbers carried in request bodies and rows (ratings, points, scores)
  are modelled as exact rationals (`ℚ`); `parseFloat(x.toFixed(1))` is
  modelled as exact round-half-up to one decimal (`round1`).
* Every fallible external-store call is given an explicit Boolean outcome
  parameter (`true` = that call fails).  Calls whose error result the
  source discards (the question/tag deletes in PUT /api/tests/:id, the
  select and update inside updateTestRating, the admin_logs inserts, the
  title fetch in DELETE /api/tests/:id) are modelled as silently leaving
  the store unchanged when they fail, exactly as the source does.
* Store-generated serial ids are modelled by a `nextTestId` counter;
  row ids that no claim observes (question, review, result, log ids) are
  omitted from the row types.
* Timestamp columns that no claim observes (`created_at`, `updated_at`)
  are omitted; `completed_at` and `last_login` are kept as opaque strings
  supplied by a `now` argument.
-/

namespace QuizApi

/-- JS `v || d` on an optional number field: `undefined`, `null` and `0`
are falsy, so they all yield the default.  Models `q.points || 1`
(src/server.js lines 126, 142, 195, 216). -/
def jsOrNum (v : Option ℚ) (d : ℚ) : ℚ :=
  match v with
  | none => d
  | some x => if x = 0 then d else x

/-- JS `v || d` on an optional string field: `undefined`, `null` and `""`
are falsy.  Models the user_name default at line 309 and the deleted-test
title fallback at line 289. -/
def jsOrStr (v : Option String) (d : String) : String :=
  match v with
  | none => d
  | some x => if x = "" then d else x

/-- Exact-rational model of `parseFloat(x.toFixed(1))` (src/server.js
lines 62, 434): round to one decimal place, ties rounded half-up
(ECMAScript toFixed picks the larger candidate on a tie).  Binary
floating-point representation artifacts are outside the model. -/
def round1 (x : ℚ) : ℚ :=
  ((round (x * 10) : ℤ) : ℚ) / 10

/-- Row of the `tests` table (columns used by src/server.js). -/
structure TestRow where
  id : Nat
  title : String
  description : String
  question_count : Nat
  total_points : ℚ
  is_published : Bool
  average_rating : ℚ
  review_count : Nat
  created_by : Nat

/-- Row of the `questions` table. -/
structure QuestionRow where
  test_id : Nat
  question_text : String
  options : List String
  correct_answer : String
  points : ℚ
  order_index : Nat

/-- Row of the `tags` table. -/
structure TagRow where
  id : Nat
  name : String
  is_active : Bool

/-- Row of the `test_tags` join table. -/
structure TestTagRow where
  test_id : Nat
  tag_id : Nat

/-- Row of the `test_reviews` table. -/
structure ReviewRow where
  test_id : Nat
  rating : ℚ
  comment : String
  user_id : Option Nat
  is_approved : Bool

/-- Row of the `results` table as written by src/server.js lines 304-316. -/
structure ResultRow where
  test_id : Nat
  user_name : String
  answers : String
  score : ℚ
  total_questions : Option ℚ
  percentage : Option ℚ

/-- Row of the `results` table as written by the alternate route set
(src/unnamed/part_000 lines 69-81). -/
structure ResultRowV2 where
  test_id : Nat
  user_name : Option String
  score : ℚ
  max_score : ℚ
  answers : String
  completed_at : String

/-- Row of the `users` table. -/
structure UserRow where
  id : Nat
  email : String
  password_hash : String
  role : String
  last_login : Option String

/-- Row of the `admin_logs` table. -/
structure AdminLogRow where
  user_id : Nat
  action_type : String
  description : String

/-- The external store: one list per table, plus the serial-id counter for
`tests`.  The two coexisting route sets write different column sets to
`results`; they are kept as two lists of the matching row shapes. -/
structure Store where
  tests : List TestRow
  questions : List QuestionRow
  tags : List TagRow
  test_tags : List TestTagRow
  reviews : List ReviewRow
  results : List ResultRow
  resultsV2 : List ResultRowV2
  users : List UserRow
  admin_logs : List AdminLogRow
  nextTestId : Nat

/-- One question object of a create/update payload (body field
`questions[i]`); `correct_answer.toString()` is modelled by taking the
field as a string. -/
structure QuestionPayload where
  question_text : String
  options : List String
  correct_answer : String
  points : Option ℚ

/-- Body of POST /api/tests; `tags` carries the `tag.id` values the
handler reads (lines 116, 154-157). -/
structure TestPayload where
  title : String
  description : String
  questions : List QuestionPayload
  tags : Option (List Nat)
  created_by : Nat

/-- Body of PUT /api/tests/:id (line 186). -/
structure TestUpdatePayload where
  title : String
  description : String
  questions : List QuestionPayload
  tags : Option (List Nat)
  updated_by : Nat

/-- Body of POST /api/reviews (line 394); `user_name` is destructured by
the handler but never used. -/
structure ReviewPayload where
  test_id : Nat
  user_name : Option String
  rating : ℚ
  comment : String

/-- Body of POST /api/results in src/server.js (line 302). -/
structure ResultPayload where
  test_id : Nat
  user_name : Option String
  answers : String
  score : ℚ
  total_questions : Option ℚ
  percentage : Option ℚ

/-- Body of POST /api/results in src/unnamed/part_000 (line 67). -/
structure ResultPayloadV2 where
  test_id : Nat
  user_name : Option String
  score : ℚ
  max_score : ℚ
  answers : String

/-- Enriched GET /api/tests/:id response body (src/server.js lines
102-107): the test row spread together with its questions, its tag join
results (`t.tags`, which is null when the joined tag row is absent), and
its approved reviews. -/
structure TestDetail where
  test : TestRow
  questions : List QuestionRow
  tags : List (Option TagRow)
  reviews : List ReviewRow

/-- HTTP responses the modelled handlers produce.  Success bodies keep the
returned row; `err401` keeps the exact JSON body fields of the fixed
login failure (line 376); 500 bodies only echo the message text of the store error, which no claim
observes, so it is not carried. -/
inductive Response where
  | okTest (t : TestRow)
  | okDeleted
  | okReview (r : ReviewRow)
  | okResult (r : ResultRow)
  | okResultV2 (r : ResultRowV2)
  | okUser (u : UserRow)
  | okTestDetail (d : TestDetail)
  | err401 (success : Bool) (error : String)
  | err500

/-- A response is a success (2xx JSON) iff it is not one of the error
envelopes. -/
def isSuccess : Response → Bool
  | Response.err401 _ _ => false
  | Response.err500 => false
  | _ => true

/-- Append an `admin_logs` row; the source never checks the results of
these inserts (lines 167-175, 246-254, 283-291), so a failure leaves the store
unchanged and is not reported. -/
def appendLog (row : AdminLogRow) (fails : Bool) (s : Store) : Store :=
  if fails then s else { s with admin_logs := s.admin_logs ++ [row] }

/-- `questions.reduce((sum, q) => sum + (q.points || 1), 0)`
(src/server.js lines 126 and 195). -/
def totalPoints (qs : List QuestionPayload) : ℚ :=
  qs.foldl (fun sum q => sum + jsOrNum q.points 1) 0

/-- The `tests` row inserted by POST /api/tests (lines 119-132).  The
store-generated id is the counter value; `average_rating`/`review_count`
are not part of the insert — per spec §3 they are store column defaults,
0 with zero reviews. -/
def mkNewTest (p : TestPayload) (s : Store) : TestRow :=
  { id := s.nextTestId
    title := p.title
    description := p.description
    question_count := p.questions.length
    total_points := totalPoints p.questions
    is_published := true
    average_rating := 0
    review_count := 0
    created_by := p.created_by }

/-- `questions.map((q, index) => ({...}))` (lines 137-144 and 211-218):
question rows tagged with the given test id and zero-based
`order_index`; the starting index argument makes the recursion explicit. -/
def mkQuestionRows (testId : Nat) : Nat → List QuestionPayload → List QuestionRow
  | _, [] => []
  | i, q :: qs =>
    { test_id := testId
      question_text := q.question_text
      options := q.options
      correct_answer := q.correct_answer
      points := jsOrNum q.points 1
      order_index := i } :: mkQuestionRows testId (i + 1) qs

/-- `tags.map(tag => ({test_id, tag_id: tag.id}))` (lines 154-157 and
233-236). -/
def mkTestTags (testId : Nat) (tagIds : List Nat) : List TestTagRow :=
  tagIds.map (fun tg => { test_id := testId, tag_id := tg })

/-- Model of PostgREST `.single()` on a query result set: the row when
exactly one row matched, otherwise an error (surfaced as `none`). -/
def selectSingle (l : List TestRow) : Option TestRow :=
  match l with
  | [t] => some t
  | _ => none

/-- The tag-association insert step shared by POST and PUT (lines 153-164
and 232-243): when `tags && tags.length > 0`, insert the join rows
(checked: first component true means the step failed and the handler
throws); otherwise do nothing. -/
def insertTagLinks (testId : Nat) (tags : Option (List Nat)) (insFails : Bool) (s : Store) :
    Bool × Store :=
  match tags with
  | some tagIds =>
    if tagIds.length > 0 then
      if insFails then (true, s)
      else (false, { s with test_tags := s.test_tags ++ mkTestTags testId tagIds })
    else (false, s)
  | none => (false, s)

/-- Failure pattern for the four store writes of POST /api/tests. -/
structure PostTestFails where
  insTest : Bool
  insQuestions : Bool
  insTags : Bool
  insLog : Bool

/-- All store calls of POST /api/tests succeed. -/
def postOk : PostTestFails := ⟨false, false, false, false⟩

/-- POST /api/tests (src/server.js lines 114-181): insert the test row
(checked), insert the question rows (checked), insert tag associations if
`tags && tags.length > 0` (checked), append the audit log entry
(result discarded), answer `{success:true, data:test}`. -/
def postTest (p : TestPayload) (f : PostTestFails) (s : Store) : Response × Store :=
  if f.insTest then (Response.err500, s)
  else
    let test := mkNewTest p s
    let s1 := { s with tests := s.tests ++ [test], nextTestId := s.nextTestId + 1 }
    if f.insQuestions then (Response.err500, s1)
    else
      let s2 := { s1 with questions := s1.questions ++ mkQuestionRows test.id 0 p.questions }
      let r := insertTagLinks test.id p.tags f.insTags s2
      if r.1 then (Response.err500, r.2)
      else
        (Response.okTest test,
          appendLog ⟨p.created_by, "CREATE_TEST", "Создан тест: " ++ p.title⟩ f.insLog r.2)

/-- The field update applied to the matched `tests` row by
PUT /api/tests/:id (lines 189-197); `updated_at` is an unobserved
timestamp and is omitted. -/
def updatedTestRow (p : TestUpdatePayload) (t : TestRow) : TestRow :=
  { t with
    title := p.title
    description := p.description
    question_count := p.questions.length
    total_points := totalPoints p.questions }

/-- Failure pattern for the six store calls of PUT /api/tests/:id. -/
structure PutTestFails where
  updTest : Bool
  delQuestions : Bool
  insQuestions : Bool
  delTags : Bool
  insTags : Bool
  insLog : Bool

/-- All store calls of PUT /api/tests/:id succeed. -/
def putOk : PutTestFails := ⟨false, false, false, false, false, false⟩

/-- Continuation of PUT /api/tests/:id after the row update (lines
204-256): delete the old question rows (result discarded), insert the new
question rows (checked), delete the tag associations (result discarded),
insert new tag associations if any (checked), append the audit log entry
(result discarded). -/
def putTestRest (id : Nat) (p : TestUpdatePayload) (f : PutTestFails) (t : TestRow)
    (s1 : Store) : Response × Store :=
  let s2 := if f.delQuestions then s1
    else { s1 with questions := s1.questions.filter (fun q => !(q.test_id == id)) }
  if f.insQuestions then (Response.err500, s2)
  else
    let s3 := { s2 with questions := s2.questions ++ mkQuestionRows id 0 p.questions }
    let s4 := if f.delTags then s3
      else { s3 with test_tags := s3.test_tags.filter (fun tt => !(tt.test_id == id)) }
    let r := insertTagLinks id p.tags f.insTags s4
    if r.1 then (Response.err500, r.2)
    else
      (Response.okTest t,
        appendLog ⟨p.updated_by, "UPDATE_TEST", "Обновлен тест: " ++ p.title⟩ f.insLog r.2)

/-- PUT /api/tests/:id (src/server.js lines 184-260): update the test row
and `.single()` it (checked; the update is applied to every matching row,
then `.single()` errors unless exactly one row matched), then run the
remaining steps (`putTestRest`), and answer `{success:true, data:test}`
with the updated row. -/
def putTest (id : Nat) (p : TestUpdatePayload) (f : PutTestFails) (s : Store) :
    Response × Store :=
  if f.updTest then (Response.err500, s)
  else
    let upd := fun (t : TestRow) => if t.id == id then updatedTestRow p t else t
    let s1 := { s with tests := s.tests.map upd }
    (selectSingle (s1.tests.filter (fun t => t.id == id))).elim
      (Response.err500, s1)
      (fun t => putTestRest id p f t s1)

/-- Failure pattern for the fallible store calls of DELETE /api/tests/:id
(the error of the title select is already discarded by the source and
needs no flag: a miss or failure both leave the fetched test null). -/
structure DeleteTestFails where
  delTest : Bool
  insLog : Bool

/-- All store calls of DELETE /api/tests/:id succeed. -/
def delOk : DeleteTestFails := ⟨false, false⟩

/-- DELETE /api/tests/:id (src/server.js lines 263-297): fetch the title
(error discarded), delete the test row (checked; cascading deletion of
questions and tag links is performed by the store, per the source comment
at line 274 and spec §4), append the audit log entry with
`test?.title || req.params.id` (result discarded), answer
`{success:true}`. -/
def deleteTest (id : Nat) (user_id : Nat) (f : DeleteTestFails) (s : Store) :
    Response × Store :=
  let titleOpt := (selectSingle (s.tests.filter (fun t => t.id == id))).map TestRow.title
  if f.delTest then (Response.err500, s)
  else
    let s1 := { s with
      tests := s.tests.filter (fun t => !(t.id == id))
      questions := s.questions.filter (fun q => !(q.test_id == id))
      test_tags := s.test_tags.filter (fun tt => !(tt.test_id == id)) }
    let s2 := appendLog
      ⟨user_id, "DELETE_TEST", "Удален тест: " ++ jsOrStr titleOpt (toString id)⟩
      f.insLog s1
    (Response.okDeleted, s2)

/-- The `results` row inserted by POST /api/results in src/server.js
(lines 304-316), with the Anonymous default for a falsy user_name. -/
def mkResultRow (p : ResultPayload) : ResultRow :=
  { test_id := p.test_id
    user_name := jsOrStr p.user_name "Anonymous"
    answers := p.answers
    score := p.score
    total_questions := p.total_questions
    percentage := p.percentage }

/-- POST /api/results, src/server.js variant (lines 300-323): insert one
row (checked), answer `{success:true, data: data[0]}`. -/
def postResults (p : ResultPayload) (insFails : Bool) (s : Store) : Response × Store :=
  if insFails then (Response.err500, s)
  else (Response.okResult (mkResultRow p), { s with results := s.results ++ [mkResultRow p] })

/-- The `results` row inserted by POST /api/results in
src/unnamed/part_000 (lines 69-81): no name default, `completed_at` set
to the current time. -/
def mkResultRowV2 (p : ResultPayloadV2) (now : String) : ResultRowV2 :=
  { test_id := p.test_id
    user_name := p.user_name
    score := p.score
    max_score := p.max_score
    answers := p.answers
    completed_at := now }

/-- POST /api/results, src/unnamed/part_000 variant (lines 65-88): insert
one row (checked), answer the row itself. -/
def postResultsV2 (p : ResultPayloadV2) (now : String) (insFails : Bool) (s : Store) :
    Response × Store :=
  if insFails then (Response.err500, s)
  else (Response.okResultV2 (mkResultRowV2 p now),
    { s with resultsV2 := s.resultsV2 ++ [mkResultRowV2 p now] })

/-- The rating column of the approved reviews of one test, as selected at
src/server.js lines 48-52 and 422-426. -/
def approvedRatings (s : Store) (testId : Nat) : List ℚ :=
  (s.reviews.filter (fun r => r.test_id == testId && r.is_approved)).map ReviewRow.rating

/-- `updateTestRating` (src/server.js lines 421-439): select the approved
ratings (error discarded — a failed select leaves `reviews` null and the
guard skips the write), and if there is at least one, write back the
rounded mean and the count to the `tests` row (update result discarded). -/
def updateTestRating (testId : Nat) (selFails updFails : Bool) (s : Store) : Store :=
  if selFails then s
  else
    let ratings := approvedRatings s testId
    if ratings.length > 0 then
      if updFails then s
      else
        { s with tests := s.tests.map (fun t =>
            if t.id == testId then
              { t with
                average_rating := round1 (ratings.sum / (ratings.length : ℚ))
                review_count := ratings.length }
            else t) }
    else s

/-- Failure pattern for the store calls of POST /api/reviews. -/
structure ReviewFails where
  insReview : Bool
  selRatings : Bool
  updRating : Bool

/-- All store calls of POST /api/reviews succeed. -/
def reviewOk : ReviewFails := ⟨false, false, false⟩

/-- The `test_reviews` row inserted by POST /api/reviews (lines 396-407):
`user_id` is always null and `is_approved` always true. -/
def mkReviewRow (p : ReviewPayload) : ReviewRow :=
  { test_id := p.test_id
    rating := p.rating
    comment := p.comment
    user_id := none
    is_approved := true }

/-- POST /api/reviews (src/server.js lines 392-418): insert the review row
(checked), run `updateTestRating(test_id)`, answer
`{success:true, data: data[0]}`. -/
def postReview (p : ReviewPayload) (f : ReviewFails) (s : Store) : Response × Store :=
  if f.insReview then (Response.err500, s)
  else
    let row := mkReviewRow p
    let s1 := { s with reviews := s.reviews ++ [row] }
    (Response.okReview row, updateTestRating p.test_id f.selRatings f.updRating s1)

/-- The store state after a review submission in which all three store
calls succeed. -/
def afterReview (p : ReviewPayload) (s : Store) : Store :=
  (postReview p reviewOk s).2

/-- Insert a question row into a list sorted by `order_index`,
keeping earlier-listed rows first among equals. -/
def insertByOrder (q : QuestionRow) : List QuestionRow → List QuestionRow
  | [] => [q]
  | x :: xs =>
    if q.order_index ≤ x.order_index then q :: x :: xs else x :: insertByOrder q xs

/-- The store-side `ORDER BY order_index` of the questions select
(src/server.js line 90, src/unnamed/part_000 line 51), modelled as a
stable insertion sort on `order_index`. -/
def sortByOrderIndex : List QuestionRow → List QuestionRow
  | [] => []
  | x :: xs => insertByOrder x (sortByOrderIndex xs)

/-- GET /api/tests/:id, enriched variant (src/server.js lines 75-111):
fetch the test row (`.single()`, a miss surfaces as a thrown error and a
500), its questions ordered by `order_index`, its tag join rows, and its
approved reviews. -/
def getTest (id : Nat) (s : Store) : Response :=
  match selectSingle (s.tests.filter (fun t => t.id == id)) with
  | none => Response.err500
  | some t =>
    Response.okTestDetail
      { test := t
        questions := sortByOrderIndex (s.questions.filter (fun q => q.test_id == id))
        tags := (s.test_tags.filter (fun tt => tt.test_id == id)).map
          (fun tt => s.tags.find? (fun tg => tg.id == tt.tag_id))
        reviews := s.reviews.filter (fun r => r.test_id == id && r.is_approved) }

/-- POST /api/admin/login (src/server.js lines 363-389): select the user
with matching email, password (compared in plaintext against
`password_hash`) and role `admin`; `.single()` errors unless exactly one
row matches, and `if (error || !user)` answers the fixed 401 body.  On
the unique match, update `last_login` (result discarded) and answer
`{success:true, user}` with the row as selected. -/
def adminLogin (email password : String) (queryFails updFails : Bool) (now : String)
    (s : Store) : Response × Store :=
  let matched := if queryFails then []
    else s.users.filter (fun u =>
      u.email == email && u.password_hash == password && u.role == "admin")
  match matched with
  | [u] =>
    let s1 := if updFails then s
      else { s with users := s.users.map (fun v =>
        if v.id == u.id then { v with last_login := some now } else v) }
    (Response.okUser u, s1)
  | _ => (Response.err401 false "Неверные учетные данные", s)

/-- The denormalization invariant of spec §3 for one test row: with zero
approved reviews the stored aggregate is 0/0, otherwise it is the rounded
mean and the count of the approved ratings. -/
def ratingOk (s : Store) (t : TestRow) : Prop :=
  (approvedRatings s t.id = [] → t.average_rating = 0 ∧ t.review_count = 0) ∧
  (approvedRatings s t.id ≠ [] →
    t.average_rating = round1 ((approvedRatings s t.id).sum / ((approvedRatings s t.id).length : ℚ)) ∧
    t.review_count = (approvedRatings s t.id).length)

/-- The store with no rows, the id counter at 1. -/
def emptyStore : Store :=
  { tests := []
    questions := []
    tags := []
    test_tags := []
    reviews := []
    results := []
    resultsV2 := []
    users := []
    admin_logs := []
    nextTestId := 1 }

/-- The reading of total_points that C4 states: the sum of the submitted
questions points, taking 1 only when the field is omitted.  Stated from
the words of the claim, for comparison with `totalPoints` (which also
maps an explicit 0 to 1, because the JS or-operator treats 0 as falsy). -/
def claimedTotalPoints (qs : List QuestionPayload) : ℚ :=
  (qs.map (fun q => q.points.getD 1)).sum

/-- An existing test row used by the concrete executions below. -/
def testRow1 : TestRow :=
  { id := 1
    title := "old"
    description := "d0"
    question_count := 1
    total_points := 1
    is_published := true
    average_rating := 0
    review_count := 0
    created_by := 1 }

/-- An existing question row of test 1. -/
def oldQuestion : QuestionRow :=
  { test_id := 1
    question_text := "old-q"
    options := ["x", "y"]
    correct_answer := "x"
    points := 1
    order_index := 0 }

/-- A store holding test 1 with one question and no reviews. -/
def oneTestStore : Store :=
  { emptyStore with tests := [testRow1], questions := [oldQuestion], nextTestId := 2 }

/-- A creation payload with one question. -/
def createPayload1 : TestPayload :=
  { title := "T"
    description := "d"
    questions := [⟨"q1", ["a", "b"], "a", none⟩]
    tags := none
    created_by := 1 }

/-- A creation payload whose single question carries an explicit
`points: 0`. -/
def zeroPointsPayload : TestPayload :=
  { title := "Z"
    description := "z"
    questions := [⟨"q", [], "a", some 0⟩]
    tags := none
    created_by := 1 }

/-- A creation payload with two questions, to observe ordering. -/
def twoQuestionsPayload : TestPayload :=
  { title := "W"
    description := "w"
    questions := [⟨"first", ["a"], "a", none⟩, ⟨"second", ["b"], "b", some 2⟩]
    tags := none
    created_by := 3 }

/-- An update payload with one fresh question. -/
def updPayload : TestUpdatePayload :=
  { title := "new"
    description := "nd"
    questions := [⟨"new-q", ["c"], "c", none⟩]
    tags := none
    updated_by := 1 }

/-- Failure pattern: only the old-question delete of PUT fails (the call
whose result line 205-208 discards). -/
def delQuestionsFails : PutTestFails := ⟨false, true, false, false, false, false⟩

/-- A review payload for test 1 with rating 5. -/
def reviewPayload1 : ReviewPayload := ⟨1, none, 5, "good"⟩

/-- A result payload with the name field omitted. -/
def resultPayload1 : ResultPayload := ⟨1, none, "[0,1]", 5, some 10, some 50⟩

/-- A result payload for the alternate route set. -/
def resultPayload2 : ResultPayloadV2 := ⟨1, some "Bob", 5, 10, "[0,1]"⟩

/-- A stored admin user. -/
def adminUser : UserRow := ⟨1, "a@b.c", "pw", "admin", none⟩

/-- A store holding only the admin user. -/
def userStore : Store := { emptyStore with users := [adminUser] }

theorem appendLog_questions (r : AdminLogRow) (b : Bool) (s : Store) :
    (appendLog r b s).questions = s.questions := by
  unfold appendLog; split <;> rfl

theorem appendLog_tests (r : AdminLogRow) (b : Bool) (s : Store) :
    (appendLog r b s).tests = s.tests := by
  unfold appendLog; split <;> rfl

theorem appendLog_reviews (r : AdminLogRow) (b : Bool) (s : Store) :
    (appendLog r b s).reviews = s.reviews := by
  unfold appendLog; split <;> rfl

theorem updateTestRating_reviews (id : Nat) (sf uf : Bool) (s : Store) :
    (updateTestRating id sf uf s).reviews = s.reviews := by
  simp only [updateTestRating]; split_ifs <;> rfl

theorem totalPoints_eq_sum (qs : List QuestionPayload) :
    totalPoints qs = (qs.map (fun q => jsOrNum q.points 1)).sum := by
  have h : ∀ (l : List QuestionPayload) (a : ℚ),
      l.foldl (fun sum q => sum + jsOrNum q.points 1) a
        = a + (l.map (fun q => jsOrNum q.points 1)).sum := by
    intro l
    induction l with
    | nil => intro a; simp
    | cons q l ih => intro a; simp [ih, add_assoc]
  simpa [totalPoints] using h qs 0

theorem insertTagLinks_fst (tid : Nat) (tags : Option (List Nat)) (s : Store) :
    (insertTagLinks tid tags false s).1 = false := by
  cases tags with
  | none => rfl
  | some tagIds => by_cases hl : tagIds.length > 0 <;> simp [insertTagLinks, hl]

theorem insertTagLinks_questions (tid : Nat) (tags : Option (List Nat)) (b : Bool) (s : Store) :
    (insertTagLinks tid tags b s).2.questions = s.questions := by
  cases tags with
  | none => rfl
  | some tagIds =>
    by_cases hl : tagIds.length > 0
    · cases b <;> simp [insertTagLinks, hl]
    · simp [insertTagLinks, hl]

theorem insertTagLinks_tests (tid : Nat) (tags : Option (List Nat)) (b : Bool) (s : Store) :
    (insertTagLinks tid tags b s).2.tests = s.tests := by
  cases tags with
  | none => rfl
  | some tagIds =>
    by_cases hl : tagIds.length > 0
    · cases b <;> simp [insertTagLinks, hl]
    · simp [insertTagLinks, hl]

theorem postTest_ok_resp (p : TestPayload) (s : Store) (b : Bool) :
    (postTest p ⟨false, false, false, b⟩ s).1 = Response.okTest (mkNewTest p s) := by
  simp [postTest, insertTagLinks_fst]

theorem postTest_ok_tests (p : TestPayload) (s : Store) (b : Bool) :
    (postTest p ⟨false, false, false, b⟩ s).2.tests = s.tests ++ [mkNewTest p s] := by
  simp [postTest, insertTagLinks_fst, insertTagLinks_tests, appendLog_tests]

theorem postTest_ok_questions (p : TestPayload) (s : Store) (b : Bool) :
    (postTest p ⟨false, false, false, b⟩ s).2.questions
      = s.questions ++ mkQuestionRows s.nextTestId 0 p.questions := by
  simp [postTest, insertTagLinks_fst, insertTagLinks_questions, appendLog_questions, mkNewTest]

theorem step_ite_questions (c : Bool) (t : TestRow) (row : AdminLogRow) (fil : Bool)
    (st : Store) :
    (if c then (Response.err500, st)
      else (Response.okTest t, appendLog row fil st)).2.questions = st.questions := by
  cases c <;> simp [appendLog_questions]

theorem store_ite_questions (c : Prop) [Decidable c] (a b : Store) :
    (if c then a else b).questions = if c then a.questions else b.questions :=
  apply_ite Store.questions c a b

theorem putTestRest_resp (id : Nat) (p : TestUpdatePayload) (t : TestRow) (s1 : Store)
    (b : Bool) :
    (putTestRest id p ⟨false, false, false, false, false, b⟩ t s1).1 = Response.okTest t := by
  simp [putTestRest, insertTagLinks_fst]

theorem putTestRest_questions (id : Nat) (p : TestUpdatePayload) (f : PutTestFails)
    (t : TestRow) (s1 : Store) (hdel : f.delQuestions = false)
    (hok : isSuccess (putTestRest id p f t s1).1 = true) :
    (putTestRest id p f t s1).2.questions
      = s1.questions.filter (fun q => !(q.test_id == id)) ++ mkQuestionRows id 0 p.questions := by
  cases hq : f.insQuestions with
  | true => exact absurd hok (by simp [putTestRest, hq, isSuccess])
  | false =>
    simp only [putTestRest, hq, hdel, Bool.false_eq_true, if_false]
    rw [step_ite_questions, insertTagLinks_questions, store_ite_questions]
    simp

theorem putTest_noSingle (id : Nat) (p : TestUpdatePayload) (f : PutTestFails) (s : Store)
    (hu : f.updTest = false)
    (hs : selectSingle ((s.tests.map
        (fun (t : TestRow) => if t.id == id then updatedTestRow p t else t)).filter
        (fun t => t.id == id)) = none) :
    (putTest id p f s).1 = Response.err500 := by
  simp only [putTest, hu, Bool.false_eq_true, if_false, hs, Option.elim]

theorem putTest_eq_rest (id : Nat) (p : TestUpdatePayload) (f : PutTestFails) (s : Store)
    (t1 : TestRow) (hu : f.updTest = false)
    (hs : selectSingle ((s.tests.map
        (fun (t : TestRow) => if t.id == id then updatedTestRow p t else t)).filter
        (fun t => t.id == id)) = some t1) :
    putTest id p f s = putTestRest id p f t1
      { s with tests := s.tests.map (fun (t : TestRow) => if t.id == id then updatedTestRow p t else t) } := by
  simp only [putTest, hu, Bool.false_eq_true, if_false, hs, Option.elim]

theorem putTest_ok_resp (id : Nat) (p : TestUpdatePayload) (s : Store) (t0 : TestRow)
    (b : Bool) (h : s.tests.filter (fun t => t.id == id) = [t0]) :
    (putTest id p ⟨false, false, false, false, false, b⟩ s).1
      = Response.okTest (updatedTestRow p t0) := by
  have hupd : ∀ t : TestRow,
      ((if t.id == id then updatedTestRow p t else t).id == id) = (t.id == id) := by
    intro t
    cases ht : t.id == id <;> simp [ht, updatedTestRow]
  have ht0 : (t0.id == id) = true := by
    have hmem : t0 ∈ s.tests.filter (fun t => t.id == id) := by
      rw [h]; exact List.mem_cons_self _ _
    exact (List.mem_filter.mp hmem).2
  have hfil : (s.tests.map
      (fun (t : TestRow) => if t.id == id then updatedTestRow p t else t)).filter
      (fun t => t.id == id) = [updatedTestRow p t0] := by
    rw [List.filter_map]
    have hcomp : ((fun (t : TestRow) => t.id == id)
        ∘ (fun (t : TestRow) => if t.id == id then updatedTestRow p t else t))
        = fun (t : TestRow) => t.id == id := by
      funext t; exact hupd t
    rw [hcomp, h]
    have ht0p : t0.id = id := by simpa using ht0
    simp [ht0p]
  have hs : selectSingle ((s.tests.map
      (fun (t : TestRow) => if t.id == id then updatedTestRow p t else t)).filter
      (fun t => t.id == id)) = some (updatedTestRow p t0) := by
    rw [hfil]; rfl
  rw [putTest_eq_rest id p ⟨false, false, false, false, false, b⟩ s (updatedTestRow p t0) rfl hs]
  exact putTestRest_resp id p (updatedTestRow p t0) _ b

theorem getTest_found (id : Nat) (s : Store) (t : TestRow)
    (hs : selectSingle (s.tests.filter (fun t => t.id == id)) = some t) :
    getTest id s = Response.okTestDetail
      { test := t
        questions := sortByOrderIndex (s.questions.filter (fun q => q.test_id == id))
        tags := (s.test_tags.filter (fun tt => tt.test_id == id)).map
          (fun tt => s.tags.find? (fun tg => tg.id == tt.tag_id))
        reviews := s.reviews.filter (fun r => r.test_id == id && r.is_approved) } := by
  simp only [getTest, hs]

theorem updateTestRating_pos (testId : Nat) (s : Store)
    (hne : approvedRatings s testId ≠ []) :
    updateTestRating testId false false s
      = { s with tests := s.tests.map (fun t =>
          if t.id == testId then
            { t with
              average_rating := round1
                ((approvedRatings s testId).sum / ((approvedRatings s testId).length : ℚ))
              review_count := (approvedRatings s testId).length }
          else t) } := by
  have hlen : (approvedRatings s testId).length > 0 :=
    List.length_pos.mpr hne
  simp only [updateTestRating, Bool.false_eq_true, if_false, if_pos hlen]

/-- C2: on POST /api/tests, an execution exists where the test insert
succeeds, the question insert fails, the handler answers 500, and the
inserted test row remains with no question rows; on PUT /api/tests/:id,
an execution exists where the test-row update succeeds, the question
insert fails, the handler answers 500, and the updated test row remains.
No rollback occurs: the multi-step operations are not atomic. -/
theorem create_and_update_test_not_atomic :
    ((postTest createPayload1 ⟨false, true, false, false⟩ emptyStore).1 = Response.err500 ∧
      (postTest createPayload1 ⟨false, true, false, false⟩ emptyStore).2.tests
        = [mkNewTest createPayload1 emptyStore] ∧
      (postTest createPayload1 ⟨false, true, false, false⟩ emptyStore).2.questions = []) ∧
    ((putTest 1 updPayload ⟨false, false, true, false, false, false⟩ oneTestStore).1
        = Response.err500 ∧
      (putTest 1 updPayload ⟨false, false, true, false, false, false⟩ oneTestStore).2.tests.map
          TestRow.title = ["new"]) := by
  exact ⟨⟨rfl, rfl, rfl⟩, rfl, rfl⟩

/-- C8: each POST /api/results variant inserts exactly one result row and
returns it; in the src/server.js variant an omitted `user_name` is stored
as "Anonymous". -/
theorem submit_result_inserts_one_row (p : ResultPayload) (p2 : ResultPayloadV2)
    (now : String) (s s2 : Store) :
    (postResults p false s).2.results = s.results ++ [mkResultRow p] ∧
    (postResults p false s).1 = Response.okResult (mkResultRow p) ∧
    (p.user_name = none → (mkResultRow p).user_name = "Anonymous") ∧
    (postResultsV2 p2 now false s2).2.resultsV2 = s2.resultsV2 ++ [mkResultRowV2 p2 now] ∧
    (postResultsV2 p2 now false s2).1 = Response.okResultV2 (mkResultRowV2 p2 now) := by
  refine ⟨rfl, rfl, ?_, rfl, rfl⟩
  intro h
  simp [mkResultRow, jsOrStr, h]

/-- Witness for C8: the concrete nameless payload is stored as exactly one
row with user_name "Anonymous". -/
theorem submit_result_inserts_one_row_witness :
    ((postResults resultPayload1 false emptyStore).2.results
        = emptyStore.results ++ [mkResultRow resultPayload1] ∧
      (postResults resultPayload1 false emptyStore).1
        = Response.okResult (mkResultRow resultPayload1) ∧
      (resultPayload1.user_name = none → (mkResultRow resultPayload1).user_name = "Anonymous") ∧
      (postResultsV2 resultPayload2 "t0" false emptyStore).2.resultsV2
        = emptyStore.resultsV2 ++ [mkResultRowV2 resultPayload2 "t0"] ∧
      (postResultsV2 resultPayload2 "t0" false emptyStore).1
        = Response.okResultV2 (mkResultRowV2 resultPayload2 "t0")) ∧
    (mkResultRow resultPayload1).user_name = "Anonymous" := by
  refine ⟨submit_result_inserts_one_row resultPayload1 resultPayload2 "t0" emptyStore emptyStore, ?_⟩
  simp [mkResultRow, resultPayload1, jsOrStr]

/-- C9: every review row present after POST /api/reviews either predates
the request or has `is_approved = true` and `user_id = null`; the handler
never inserts an unapproved or user-bound review, whatever the input and
whatever the store-call outcomes. -/
theorem review_rows_approved_and_unbound (p : ReviewPayload) (f : ReviewFails) (s : Store) :
    ∀ r ∈ (postReview p f s).2.reviews,
      r ∈ s.reviews ∨ (r.is_approved = true ∧ r.user_id = none) := by
  intro r hr
  cases hf : f.insReview with
  | true =>
    left
    simpa [postReview, hf] using hr
  | false =>
    have hmem : r ∈ s.reviews ++ [mkReviewRow p] := by
      simpa [postReview, hf, updateTestRating_reviews] using hr
    rcases List.mem_append.mp hmem with h | h
    · exact Or.inl h
    · right
      have : r = mkReviewRow p := by simpa using h
      subst this
      exact ⟨rfl, rfl⟩

/-- Witness for C9: the concrete inserted review is in the post-state and
satisfies the disjunction (with both fields evaluated). -/
theorem review_rows_approved_and_unbound_witness :
    (mkReviewRow reviewPayload1 ∈ (postReview reviewPayload1 reviewOk emptyStore).2.reviews) ∧
    (mkReviewRow reviewPayload1 ∈ emptyStore.reviews ∨
      ((mkReviewRow reviewPayload1).is_approved = true ∧
        (mkReviewRow reviewPayload1).user_id = none)) ∧
    (mkReviewRow reviewPayload1).is_approved = true ∧
    (mkReviewRow reviewPayload1).user_id = none := by
  have hm : mkReviewRow reviewPayload1 ∈ (postReview reviewPayload1 reviewOk emptyStore).2.reviews := by
    simp [postReview, reviewOk, updateTestRating_reviews]
  exact ⟨hm, review_rows_approved_and_unbound reviewPayload1 reviewOk emptyStore _ hm, rfl, rfl⟩

theorem adminLogin_noMatch (s : Store) (email password : String) (qf uf : Bool) (now : String)
    (h : ∀ u ∈ s.users, ¬(u.email = email ∧ u.password_hash = password ∧ u.role = "admin")) :
    adminLogin email password qf uf now s
      = (Response.err401 false "Неверные учетные данные", s) := by
  have hfil : s.users.filter (fun u =>
      u.email == email && u.password_hash == password && u.role == "admin") = [] := by
    rw [List.filter_eq_nil_iff]
    intro u hu
    have hc := h u hu
    simp only [Bool.and_eq_true, beq_iff_eq]
    tauto
  unfold adminLogin
  cases qf <;> simp [hfil]

/-- C3: whenever no stored user matches the submitted email and password
with role admin, POST /api/admin/login answers the fixed 401 body
(success false, with the fixed message Неверные учетные данные) and leaves the store
unchanged; any two such failing requests (in particular one whose email
exists and one whose email does not) receive identical responses, so the
response never reveals whether the email exists. -/
theorem admin_login_fixed_failure (s : Store) (email password : String) (qf uf : Bool)
    (now : String)
    (h : ∀ u ∈ s.users, ¬(u.email = email ∧ u.password_hash = password ∧ u.role = "admin")) :
    adminLogin email password qf uf now s
      = (Response.err401 false "Неверные учетные данные", s) ∧
    (∀ (s2 : Store) (e2 p2 : String) (qf2 uf2 : Bool) (now2 : String),
      (∀ u ∈ s2.users, ¬(u.email = e2 ∧ u.password_hash = p2 ∧ u.role = "admin")) →
      (adminLogin e2 p2 qf2 uf2 now2 s2).1 = (adminLogin email password qf uf now s).1) := by
  refine ⟨adminLogin_noMatch s email password qf uf now h, ?_⟩
  intro s2 e2 p2 qf2 uf2 now2 h2
  rw [adminLogin_noMatch s email password qf uf now h,
    adminLogin_noMatch s2 e2 p2 qf2 uf2 now2 h2]

/-- Witness for C3: against the store holding the admin user a@b.c, a
wrong-password attempt on the existing email and an attempt on an absent
email both evaluate to the same fixed 401 response. -/
theorem admin_login_fixed_failure_witness :
    (∀ u ∈ userStore.users,
      ¬(u.email = "a@b.c" ∧ u.password_hash = "wrong" ∧ u.role = "admin")) ∧
    adminLogin "a@b.c" "wrong" false false "t0" userStore
      = (Response.err401 false "Неверные учетные данные", userStore) ∧
    (adminLogin "ghost@b.c" "pw" false false "t0" userStore).1
      = (adminLogin "a@b.c" "wrong" false false "t0" userStore).1 := by
  have h : ∀ u ∈ userStore.users,
      ¬(u.email = "a@b.c" ∧ u.password_hash = "wrong" ∧ u.role = "admin") := by
    intro u hu
    have : u = adminUser := by simpa [userStore, emptyStore] using hu
    subst this
    simp [adminUser]
  have h2 : ∀ u ∈ userStore.users,
      ¬(u.email = "ghost@b.c" ∧ u.password_hash = "pw" ∧ u.role = "admin") := by
    intro u hu
    have : u = adminUser := by simpa [userStore, emptyStore] using hu
    subst this
    simp [adminUser]
  exact ⟨h, (admin_login_fixed_failure userStore "a@b.c" "wrong" false false "t0" h).1,
    (admin_login_fixed_failure userStore "a@b.c" "wrong" false false "t0" h).2
      userStore "ghost@b.c" "pw" false false "t0" h2⟩

/-- C6: deleting a test id absent from the store still succeeds and still
appends an admin_logs row whose description falls back to the raw id. -/
theorem delete_missing_test_logs_raw_id (s : Store) (id uid : Nat)
    (h : ∀ t ∈ s.tests, t.id ≠ id) :
    (deleteTest id uid delOk s).1 = Response.okDeleted ∧
    (deleteTest id uid delOk s).2.admin_logs =
      s.admin_logs ++ [⟨uid, "DELETE_TEST", "Удален тест: " ++ toString id⟩] := by
  have hfil : s.tests.filter (fun t => t.id == id) = [] := by
    rw [List.filter_eq_nil_iff]
    intro t ht
    simpa using h t ht
  exact ⟨rfl, by simp [deleteTest, delOk, appendLog, hfil, selectSingle, jsOrStr]⟩

/-- Witness for C6: deleting id 7 from the store that holds only test 1
answers success and logs the raw id 7. -/
theorem delete_missing_test_logs_raw_id_witness :
    (∀ t ∈ oneTestStore.tests, t.id ≠ 7) ∧
    (deleteTest 7 9 delOk oneTestStore).1 = Response.okDeleted ∧
    (deleteTest 7 9 delOk oneTestStore).2.admin_logs =
      oneTestStore.admin_logs ++ [⟨9, "DELETE_TEST", "Удален тест: " ++ toString 7⟩] ∧
    ("Удален тест: " ++ toString 7) = "Удален тест: 7" := by
  have h : ∀ t ∈ oneTestStore.tests, t.id ≠ 7 := by
    intro t ht
    have : t = testRow1 := by simpa [oneTestStore, emptyStore] using ht
    subst this
    simp [testRow1]
  refine ⟨h, (delete_missing_test_logs_raw_id oneTestStore 7 9 h).1,
    (delete_missing_test_logs_raw_id oneTestStore 7 9 h).2, by decide⟩

/-- C10: with every earlier store step succeeding, the response of
create-test, update-test and delete-test is the same success response
whether the trailing admin_logs insert succeeds or fails (flag `b`): the
handlers discard the result of the audit insert. -/
theorem audit_log_failure_ignored (p : TestPayload) (pu : TestUpdatePayload)
    (id uid : Nat) (s : Store) (t0 : TestRow) (b : Bool)
    (h : s.tests.filter (fun t => t.id == id) = [t0]) :
    (postTest p ⟨false, false, false, b⟩ s).1 = Response.okTest (mkNewTest p s) ∧
    (putTest id pu ⟨false, false, false, false, false, b⟩ s).1
      = Response.okTest (updatedTestRow pu t0) ∧
    (deleteTest id uid ⟨false, b⟩ s).1 = Response.okDeleted := by
  exact ⟨postTest_ok_resp p s b, putTest_ok_resp id pu s t0 b h, rfl⟩

/-- Witness for C10: on the one-test store, all three handlers answer the
same success responses with the audit insert failing (`b = true`). -/
theorem audit_log_failure_ignored_witness :
    (oneTestStore.tests.filter (fun t => t.id == 1) = [testRow1]) ∧
    ((postTest createPayload1 ⟨false, false, false, true⟩ oneTestStore).1
        = Response.okTest (mkNewTest createPayload1 oneTestStore) ∧
      (putTest 1 updPayload ⟨false, false, false, false, false, true⟩ oneTestStore).1
        = Response.okTest (updatedTestRow updPayload testRow1) ∧
      (deleteTest 1 9 ⟨false, true⟩ oneTestStore).1 = Response.okDeleted) := by
  exact ⟨rfl, audit_log_failure_ignored createPayload1 updPayload 1 9 oneTestStore testRow1 true rfl⟩

/-- Counterexample for C4: the payload whose single question carries
`points: 0` is persisted with total_points 1, not the sum 0 that the
claim ("taking 1 only for an omitted points field") prescribes, because
`q.points || 1` also replaces an explicit 0. -/
theorem create_test_points_zero_counterexample :
    (postTest zeroPointsPayload postOk emptyStore).2.tests.map TestRow.total_points ≠
      [claimedTotalPoints zeroPointsPayload.questions] := by
  have h1 : (postTest zeroPointsPayload postOk emptyStore).2.tests.map TestRow.total_points
      = [totalPoints zeroPointsPayload.questions] := rfl
  rw [h1]
  simp only [totalPoints, claimedTotalPoints, zeroPointsPayload, jsOrNum, List.foldl,
    List.map, List.sum_cons, List.sum_nil, Option.getD_some, List.cons.injEq, and_true, ne_eq]
  norm_num

/-- C4 amended: for every creation payload, POST /api/tests persists a test
row whose question_count is the length of the submitted questions array
and whose total_points is the sum of the points of the questions, taking 1 for
any question whose points field is omitted or equal to 0. -/
theorem create_test_counts_and_points (p : TestPayload) (s : Store) :
    (postTest p postOk s).2.tests = s.tests ++ [mkNewTest p s] ∧
    (mkNewTest p s).question_count = p.questions.length ∧
    (mkNewTest p s).total_points
      = (p.questions.map (fun q =>
          match q.points with
          | none => (1 : ℚ)
          | some v => if v = 0 then 1 else v)).sum := by
  refine ⟨?_, rfl, ?_⟩
  · have hb : postOk = (⟨false, false, false, false⟩ : PostTestFails) := rfl
    rw [hb, postTest_ok_tests]
  · show totalPoints p.questions = _
    have hmap : ∀ qs : List QuestionPayload,
        qs.map (fun q => jsOrNum q.points 1)
          = qs.map (fun q =>
              match q.points with
              | none => (1 : ℚ)
              | some v => if v = 0 then 1 else v) := by
      intro qs
      induction qs with
      | nil => rfl
      | cons q l ih => cases hq : q.points <;> simp [jsOrNum, hq, ih]
    rw [totalPoints_eq_sum, hmap]

theorem mkQuestionRows_map_text (tid i : Nat) (qs : List QuestionPayload) :
    (mkQuestionRows tid i qs).map QuestionRow.question_text
      = qs.map QuestionPayload.question_text := by
  induction qs generalizing i with
  | nil => rfl
  | cons q l ih => simp [mkQuestionRows, ih]

theorem mkQuestionRows_map_order (tid i : Nat) (qs : List QuestionPayload) :
    (mkQuestionRows tid i qs).map QuestionRow.order_index = List.range' i qs.length := by
  induction qs generalizing i with
  | nil => rfl
  | cons q l ih => simp [mkQuestionRows, ih, List.range'_succ]

theorem mkQuestionRows_filter_self (tid i : Nat) (qs : List QuestionPayload) :
    (mkQuestionRows tid i qs).filter (fun q => q.test_id == tid) = mkQuestionRows tid i qs := by
  induction qs generalizing i with
  | nil => rfl
  | cons q l ih => simp [mkQuestionRows, ih]

theorem mkQuestionRows_mem_ge (tid i : Nat) (qs : List QuestionPayload) :
    ∀ r ∈ mkQuestionRows tid i qs, i ≤ r.order_index := by
  induction qs generalizing i with
  | nil => intro r hr; simp [mkQuestionRows] at hr
  | cons q l ih =>
    intro r hr
    rcases List.mem_cons.mp (by simpa [mkQuestionRows] using hr) with h | h
    · rw [h]
    · have := ih (i + 1) r h
      omega

theorem sort_mkQuestionRows (tid i : Nat) (qs : List QuestionPayload) :
    sortByOrderIndex (mkQuestionRows tid i qs) = mkQuestionRows tid i qs := by
  induction qs generalizing i with
  | nil => rfl
  | cons q l ih =>
    simp only [mkQuestionRows, sortByOrderIndex, ih]
    cases hl : mkQuestionRows tid (i + 1) l with
    | nil => rfl
    | cons x rest =>
      have hx : i + 1 ≤ x.order_index :=
        mkQuestionRows_mem_ge tid (i + 1) l x (by rw [hl]; exact List.mem_cons_self _ _)
      have hle : i ≤ x.order_index := Nat.le_of_succ_le hx
      simp [insertByOrder, hle]

theorem filter_after_remove (l : List QuestionRow) (id : Nat) :
    (l.filter (fun q => !(q.test_id == id))).filter (fun q => q.test_id == id) = [] := by
  induction l with
  | nil => rfl
  | cons q l ih => cases hq : q.test_id == id <;> simp [hq, ih]

/-- Counterexample for C5: an execution of PUT /api/tests/:id in which the
question-delete call fails (its result is discarded at lines 205-208)
answers success, yet the pre-existing question row of that test is still
present afterwards: a successful PUT does not guarantee old question rows
are gone. -/
theorem update_test_stale_question_rows :
    isSuccess (putTest 1 updPayload delQuestionsFails oneTestStore).1 = true ∧
    oldQuestion ∈ (putTest 1 updPayload delQuestionsFails oneTestStore).2.questions ∧
    oldQuestion.test_id = 1 := by
  refine ⟨rfl, ?_, rfl⟩
  have hq : (putTest 1 updPayload delQuestionsFails oneTestStore).2.questions
      = oldQuestion :: mkQuestionRows 1 0 updPayload.questions := rfl
  rw [hq]
  exact List.mem_cons_self _ _

/-- C5 amended: for every PUT /api/tests/:id execution in which the
question-delete step succeeds and the response is a success, the question
rows associated with the test id are exactly the submitted list, with
order_index the zero-based position in the submitted array (and no
question row from before the update remains for that id). -/
theorem update_test_replaces_questions (id : Nat) (p : TestUpdatePayload) (f : PutTestFails)
    (s : Store) (hdel : f.delQuestions = false)
    (hok : isSuccess (putTest id p f s).1 = true) :
    ((putTest id p f s).2.questions.filter (fun q => q.test_id == id))
        = mkQuestionRows id 0 p.questions ∧
    ((putTest id p f s).2.questions.filter (fun q => q.test_id == id)).map
        QuestionRow.order_index = List.range p.questions.length := by
  have key : (putTest id p f s).2.questions.filter (fun q => q.test_id == id)
      = mkQuestionRows id 0 p.questions := by
    cases hu : f.updTest with
    | true => exact absurd hok (by simp [putTest, hu, isSuccess])
    | false =>
      cases hsel : selectSingle ((s.tests.map
          (fun (t : TestRow) => if t.id == id then updatedTestRow p t else t)).filter
          (fun t => t.id == id)) with
      | none =>
        rw [putTest_noSingle id p f s hu hsel] at hok
        exact absurd hok (by simp [isSuccess])
      | some t1 =>
        rw [putTest_eq_rest id p f s t1 hu hsel] at hok ⊢
        rw [putTestRest_questions id p f t1 _ hdel hok]
        rw [List.filter_append, filter_after_remove, mkQuestionRows_filter_self,
          List.nil_append]
  refine ⟨key, ?_⟩
  rw [key, mkQuestionRows_map_order]
  exact (List.range_eq_range' _).symm

/-- Witness for C5 amended: the all-steps-succeed PUT of the one-question
payload on the one-test store leaves exactly the new question row for
test 1. -/
theorem update_test_replaces_questions_witness :
    putOk.delQuestions = false ∧
    isSuccess (putTest 1 updPayload putOk oneTestStore).1 = true ∧
    ((putTest 1 updPayload putOk oneTestStore).2.questions.filter (fun q => q.test_id == 1))
        = mkQuestionRows 1 0 updPayload.questions := by
  exact ⟨rfl, rfl, (update_test_replaces_questions 1 updPayload putOk oneTestStore rfl rfl).1⟩

/-- C7: after creating a test via POST /api/tests in a store where no row
references the fresh id, GET /api/tests/:id on the new id returns its
questions with question_text in exactly the submitted order and
order_index equal to 0,1,...,n-1 (so the list is ordered strictly by
ascending order_index and matches the creation payload). -/
theorem create_then_get_question_order (s : Store) (p : TestPayload)
    (hq : ∀ q ∈ s.questions, q.test_id ≠ s.nextTestId)
    (ht : ∀ t ∈ s.tests, t.id ≠ s.nextTestId) :
    ∃ d : TestDetail,
      getTest s.nextTestId (postTest p postOk s).2 = Response.okTestDetail d ∧
      d.questions.map QuestionRow.question_text
        = p.questions.map QuestionPayload.question_text ∧
      d.questions.map QuestionRow.order_index = List.range p.questions.length := by
  have hb : postOk = (⟨false, false, false, false⟩ : PostTestFails) := rfl
  rw [hb]
  have htests : (postTest p ⟨false, false, false, false⟩ s).2.tests
      = s.tests ++ [mkNewTest p s] := postTest_ok_tests p s false
  have hquestions : (postTest p ⟨false, false, false, false⟩ s).2.questions
      = s.questions ++ mkQuestionRows s.nextTestId 0 p.questions :=
    postTest_ok_questions p s false
  have hfil0 : s.tests.filter (fun t => t.id == s.nextTestId) = [] := by
    rw [List.filter_eq_nil_iff]
    intro t htm
    simpa using ht t htm
  have hfilt : (postTest p ⟨false, false, false, false⟩ s).2.tests.filter
      (fun t => t.id == s.nextTestId) = [mkNewTest p s] := by
    rw [htests, List.filter_append, hfil0]
    simp [mkNewTest]
  have hsel : selectSingle ((postTest p ⟨false, false, false, false⟩ s).2.tests.filter
      (fun t => t.id == s.nextTestId)) = some (mkNewTest p s) := by
    rw [hfilt]; rfl
  have hqfil : (postTest p ⟨false, false, false, false⟩ s).2.questions.filter
      (fun q => q.test_id == s.nextTestId) = mkQuestionRows s.nextTestId 0 p.questions := by
    have h0 : s.questions.filter (fun q => q.test_id == s.nextTestId) = [] := by
      rw [List.filter_eq_nil_iff]
      intro q hqm
      simpa using hq q hqm
    rw [hquestions, List.filter_append, h0, mkQuestionRows_filter_self, List.nil_append]
  refine ⟨_, getTest_found s.nextTestId _ (mkNewTest p s) hsel, ?_, ?_⟩
  · show (sortByOrderIndex ((postTest p ⟨false, false, false, false⟩ s).2.questions.filter
        (fun q => q.test_id == s.nextTestId))).map QuestionRow.question_text = _
    rw [hqfil, sort_mkQuestionRows, mkQuestionRows_map_text]
  · show (sortByOrderIndex ((postTest p ⟨false, false, false, false⟩ s).2.questions.filter
        (fun q => q.test_id == s.nextTestId))).map QuestionRow.order_index = _
    rw [hqfil, sort_mkQuestionRows, mkQuestionRows_map_order]
    exact (List.range_eq_range' _).symm

/-- Witness for C7: creating the two-question payload in the empty store
and fetching the fresh test returns the questions as first, second with
order_index 0, 1. -/
theorem create_then_get_question_order_witness :
    (∀ q ∈ emptyStore.questions, q.test_id ≠ emptyStore.nextTestId) ∧
    (∀ t ∈ emptyStore.tests, t.id ≠ emptyStore.nextTestId) ∧
    (∃ d : TestDetail,
      getTest emptyStore.nextTestId (postTest twoQuestionsPayload postOk emptyStore).2
        = Response.okTestDetail d ∧
      d.questions.map QuestionRow.question_text
        = twoQuestionsPayload.questions.map QuestionPayload.question_text ∧
      d.questions.map QuestionRow.order_index
        = List.range twoQuestionsPayload.questions.length) ∧
    twoQuestionsPayload.questions.map QuestionPayload.question_text = ["first", "second"] ∧
    List.range twoQuestionsPayload.questions.length = [0, 1] := by
  refine ⟨by simp [emptyStore], by simp [emptyStore],
    create_then_get_question_order emptyStore twoQuestionsPayload
      (by simp [emptyStore]) (by simp [emptyStore]), by rfl, by rfl⟩

/-- C1: assuming every stored test currently satisfies the denormalized
rating invariant, then after POST /api/reviews (all store calls
succeeding) the average_rating of the parent test row is the mean of the
ratings of all approved reviews of that test rounded to one decimal, its
review_count is the number of those approved reviews, and every test with
zero approved reviews still has average_rating 0 and review_count 0. -/
theorem review_updates_rating_aggregate (p : ReviewPayload) (s : Store)
    (hinv : ∀ t ∈ s.tests, ratingOk s t) :
    (∀ t ∈ (afterReview p s).tests, t.id = p.test_id →
      t.average_rating = round1 ((approvedRatings (afterReview p s) p.test_id).sum /
        ((approvedRatings (afterReview p s) p.test_id).length : ℚ)) ∧
      t.review_count = (approvedRatings (afterReview p s) p.test_id).length) ∧
    (∀ t ∈ (afterReview p s).tests,
      approvedRatings (afterReview p s) t.id = [] →
      t.average_rating = 0 ∧ t.review_count = 0) := by
  set S1 : Store := { s with reviews := s.reviews ++ [mkReviewRow p] } with hS1
  have happr : ∀ x : Nat,
      approvedRatings S1 x
        = approvedRatings s x ++ (if p.test_id == x then [p.rating] else []) := by
    intro x
    cases hx : p.test_id == x <;>
      simp [hS1, approvedRatings, mkReviewRow, List.filter_append, hx]
  have hne : approvedRatings S1 p.test_id ≠ [] := by
    rw [happr p.test_id]
    simp
  have hafter : afterReview p s = updateTestRating p.test_id false false S1 := rfl
  have hAfterRatings : ∀ x : Nat,
      approvedRatings (afterReview p s) x = approvedRatings S1 x := by
    intro x
    show (((afterReview p s).reviews.filter _).map _) = _
    rw [hafter, updateTestRating_reviews]
    rfl
  simp only [hAfterRatings, hafter, updateTestRating_pos p.test_id S1 hne]
  constructor
  · intro t htm hid
    rcases List.mem_map.mp htm with ⟨t0, ht0, hteq⟩
    cases hb : t0.id == p.test_id with
    | true =>
      rw [if_pos hb] at hteq
      rw [← hteq]
      exact ⟨rfl, rfl⟩
    | false =>
      have hbn : ¬((t0.id == p.test_id) = true) := by simp [hb]
      rw [if_neg hbn] at hteq
      rw [← hteq] at hid
      have hne0 : t0.id ≠ p.test_id := by simpa using hb
      exact absurd hid hne0
  · intro t htm hz
    rcases List.mem_map.mp htm with ⟨t0, ht0, hteq⟩
    cases hb : t0.id == p.test_id with
    | true =>
      rw [if_pos hb] at hteq
      exfalso
      have hid : t.id = p.test_id := by
        rw [← hteq]
        simpa using hb
      rw [hid] at hz
      exact hne hz
    | false =>
      have hbn : ¬((t0.id == p.test_id) = true) := by simp [hb]
      rw [if_neg hbn] at hteq
      subst hteq
      have hz1 : approvedRatings S1 t0.id = [] := hz
      have hid0 : t0.id ≠ p.test_id := by simpa using hb
      have hback : (p.test_id == t0.id) = false := by simp [Ne.symm hid0]
      have hzs : approvedRatings s t0.id = [] := by
        rw [happr t0.id, hback] at hz1
        simpa using hz1
      exact (hinv t0 ht0).1 hzs

/-- Witness for C1: submitting a rating-5 review for test 1 against the
one-test store (which satisfies the invariant) leaves test 1 with
average_rating 5 and review_count 1. -/
theorem review_updates_rating_aggregate_witness :
    (∀ t ∈ oneTestStore.tests, ratingOk oneTestStore t) ∧
    ((∀ t ∈ (afterReview reviewPayload1 oneTestStore).tests, t.id = reviewPayload1.test_id →
      t.average_rating = round1
        ((approvedRatings (afterReview reviewPayload1 oneTestStore) reviewPayload1.test_id).sum /
        ((approvedRatings (afterReview reviewPayload1 oneTestStore) reviewPayload1.test_id).length : ℚ)) ∧
      t.review_count
        = (approvedRatings (afterReview reviewPayload1 oneTestStore) reviewPayload1.test_id).length) ∧
    (∀ t ∈ (afterReview reviewPayload1 oneTestStore).tests,
      approvedRatings (afterReview reviewPayload1 oneTestStore) t.id = [] →
      t.average_rating = 0 ∧ t.review_count = 0)) ∧
    (afterReview reviewPayload1 oneTestStore).tests.map TestRow.average_rating = [5] ∧
    (afterReview reviewPayload1 oneTestStore).tests.map TestRow.review_count = [1] := by
  have hinv : ∀ t ∈ oneTestStore.tests, ratingOk oneTestStore t := by
    intro t htm
    have ht : t = testRow1 := by simpa [oneTestStore, emptyStore] using htm
    subst ht
    constructor
    · intro _
      exact ⟨rfl, rfl⟩
    · intro hcon
      exact absurd rfl hcon
  refine ⟨hinv, review_updates_rating_aggregate reviewPayload1 oneTestStore hinv, ?_, ?_⟩
  · norm_num [afterReview, postReview, reviewOk, updateTestRating, approvedRatings,
      oneTestStore, emptyStore, mkReviewRow, reviewPayload1, testRow1, round1, round_eq]
  · norm_num [afterReview, postReview, reviewOk, updateTestRating, approvedRatings,
      oneTestStore, emptyStore, mkReviewRow, reviewPayload1, testRow1]

end QuizApi
